import Mathlib

/-!
Shallow embedding of `src/main.c` of the Dimmer-with-a-rotary-encoder
firmware (event-queue variant): a rotary encoder and its push button drive
three PWM-dimmed LEDs through a GPIO interrupt callback, a bounded event
queue and a main polling loop.

Conventions of the embedding:
* C `uint` / `uint32_t` values are `Nat`; where 32-bit wrap-around matters
  (the debounce subtraction `now - last_ms`) it is written explicitly as
  arithmetic modulo 2^32.  `int32_t` event data is `Int`.
* The PWM hardware is modelled as the map from (slice, channel) to the
  programmed compare (duty) level; `pwm_gpio_to_slice_num` and
  `pwm_gpio_to_channel` compute slice and channel from a GPIO pin exactly as
  on the RP2040 (slice = (pin / 2) mod 8, channel = pin mod 2).
* The pico-SDK queue (`pico/util/queue.h`) is not part of the repository's
  sources; it is modelled from the spec (see `queue_t` below).
-/

namespace Dimmer

/-- `#define CLK_DIV 125` — PWM clock divider. -/
def CLK_DIV : Nat := 125

/-- `#define TOP 999` — PWM counter top value. -/
def TOP : Nat := 999

/-- `#define ROT_A 10` — rotary encoder channel A pin. -/
def ROT_A : Nat := 10

/-- `#define ROT_B 11` — rotary encoder channel B pin. -/
def ROT_B : Nat := 11

/-- `#define ROT_SW 12` — rotary encoder push-button pin. -/
def ROT_SW : Nat := 12

/-- `#define DEBOUNCE_MS 20` — debounce delay in milliseconds. -/
def DEBOUNCE_MS : Nat := 20

/-- `#define LED_R 22` — right LED pin. -/
def LED_R : Nat := 22

/-- `#define LED_M 21` — middle LED pin. -/
def LED_M : Nat := 21

/-- `#define LED_L 20` — left LED pin. -/
def LED_L : Nat := 20

/-- `#define LEDS_SIZE 3` — number of LEDs. -/
def LEDS_SIZE : Nat := 3

/-- `#define BR_RATE 50` — step size for brightness change. -/
def BR_RATE : Nat := 50

/-- `#define MAX_BR (TOP + 1)` — max brightness. -/
def MAX_BR : Nat := TOP + 1

/-- `#define BR_MID (MAX_BR / 2)` — 50% brightness level. -/
def BR_MID : Nat := MAX_BR / 2

/-- `typedef enum { EVENT_BUTTON, EVENT_ENCODER } event_type;` -/
inductive event_type where
  | EVENT_BUTTON
  | EVENT_ENCODER
deriving DecidableEq, Repr

/-- `typedef struct { event_type type; int32_t data; } event_t;`
`data` is 1 = press / 0 = release for buttons, +1 or -1 for encoder steps. -/
structure event_t where
  type : event_type
  data : Int
deriving DecidableEq, Repr

/-- GPIO IRQ mask bit for a rising edge (`GPIO_IRQ_EDGE_RISE = 0x8`). -/
def GPIO_IRQ_EDGE_RISE : Nat := 8

/-- GPIO IRQ mask bit for a falling edge (`GPIO_IRQ_EDGE_FALL = 0x4`). -/
def GPIO_IRQ_EDGE_FALL : Nat := 4

/-- `uint clamp(const int br)` from `src/main.c`:
limits the brightness value, returning 0 below 0 and `MAX_BR` above
`MAX_BR` (note: the bound actually enforced is `MAX_BR = TOP + 1`). -/
def clamp (br : Int) : Nat :=
  if br < 0 then 0
  else if br > (MAX_BR : Int) then MAX_BR
  else br.toNat

/-- `pwm_gpio_to_slice_num` (RP2040): slice of a GPIO pin. -/
def pwm_gpio_to_slice_num (gpio : Nat) : Nat := (gpio / 2) % 8

/-- `pwm_gpio_to_channel` (RP2040): channel (0 = A, 1 = B) of a GPIO pin. -/
def pwm_gpio_to_channel (gpio : Nat) : Nat := gpio % 2

/-- The PWM hardware state: compare (duty) level per (slice, channel). -/
def PwmState := Nat → Nat → Nat

/-- `pwm_set_chan_level(slice, chan, level)`: program one channel's
compare value. -/
def pwm_set_chan_level (pwm : PwmState) (slice chan level : Nat) : PwmState :=
  fun s c => if s = slice ∧ c = chan then level else pwm s c

/-- The `leds` array of `main`: `{LED_R, LED_M, LED_L}`. -/
def leds : List Nat := [LED_R, LED_M, LED_L]

/-- `void set_brightness(const uint *leds, const uint brightness)`:
update the duty cycle for all LED channels. -/
def set_brightness (pwm : PwmState) (brightness : Nat) : PwmState :=
  leds.foldl
    (fun acc pin =>
      pwm_set_chan_level acc (pwm_gpio_to_slice_num pin)
        (pwm_gpio_to_channel pin) brightness)
    pwm

/-- `bool light_switch(const uint *leds, const uint brightness, const bool on)`:
turn the lights on at `brightness` (returning `true`) or off at duty 0
(returning `false`).  The pair is (new PWM state, returned flag). -/
def light_switch (pwm : PwmState) (brightness : Nat) (on' : Bool) :
    PwmState × Bool :=
  if on' then (set_brightness pwm brightness, true)
  else (set_brightness pwm 0, false)

/-- The lighting state owned by `main`: the local `brightness`, the
`lightsOn` flag and the PWM hardware state it programs. -/
structure State where
  brightness : Nat
  lightsOn : Bool
  pwm : PwmState

/-- The body of `main`'s inner `while (queue_try_remove(...))` loop for one
drained event: button press handling followed by encoder handling
(`src/main.c` lines 64–91). -/
def step (s : State) (e : event_t) : State :=
  let s1 :=
    if e.type = event_type.EVENT_BUTTON ∧ e.data = 1 then
      if s.lightsOn = false then
        let r := light_switch s.pwm s.brightness true
        { s with pwm := r.1, lightsOn := r.2 }
      else if s.brightness ≤ 0 then
        { s with brightness := BR_MID, pwm := set_brightness s.pwm BR_MID }
      else
        let r := light_switch s.pwm 0 false
        { s with pwm := r.1, lightsOn := r.2 }
    else s
  if e.type = event_type.EVENT_ENCODER ∧ s1.lightsOn = true then
    let b := clamp ((s1.brightness : Int) + e.data * (BR_RATE : Int))
    { s1 with brightness := b, pwm := set_brightness s1.pwm b }
  else s1

/-- `void ini_leds(const uint *leds)`, restricted to its effect on the
programmed compare levels: every LED channel is set to duty 0
(clock/wrap configuration and enabling carry no duty information). -/
def ini_leds (pwm : PwmState) : PwmState :=
  leds.foldl
    (fun acc pin =>
      pwm_set_chan_level acc (pwm_gpio_to_slice_num pin)
        (pwm_gpio_to_channel pin) 0)
    pwm

/-- The lighting state right after `main`'s initialization:
`brightness = BR_MID`, `lightsOn = false`, all LED channels at duty 0
(`pwm0` is whatever the hardware held before `ini_leds`). -/
def init_state (pwm0 : PwmState) : State :=
  { brightness := BR_MID, lightsOn := false, pwm := ini_leds pwm0 }

/-- Duty (compare) level currently programmed for a given LED pin. -/
def led_duty (s : State) (pin : Nat) : Nat :=
  s.pwm (pwm_gpio_to_slice_num pin) (pwm_gpio_to_channel pin)

/-- Modelled from the spec: the pico-SDK queue type (`pico/util/queue.h`)
is not part of this repository's sources; the spec describes it as a
"fixed-capacity (32) ordered sequence of Event, FIFO", whose producer
"never blocks (drops event silently on overflow)" and whose consumer
"never blocks (polls with try-remove)".  `cap` is the `element_count`
passed to `queue_init`. -/
structure queue_t where
  cap : Nat
  elems : List event_t
deriving DecidableEq, Repr

/-- Modelled from the spec: `queue_init(&q, sizeof(event_t), element_count)`
creates an empty queue of fixed capacity `element_count`. -/
def queue_init (element_count : Nat) : queue_t :=
  { cap := element_count, elems := [] }

/-- Modelled from the spec: `queue_try_add` appends at the tail and returns
`true` when the queue has room; on a full queue it returns `false` and
leaves the queue unchanged (the event is dropped, no blocking). -/
def queue_try_add (q : queue_t) (e : event_t) : queue_t × Bool :=
  if q.elems.length ≥ q.cap then (q, false)
  else ({ q with elems := q.elems ++ [e] }, true)

/-- Modelled from the spec: `queue_try_remove` pops the head and returns it
when the queue is non-empty; on an empty queue it returns nothing and
leaves the queue unchanged (no blocking). -/
def queue_try_remove (q : queue_t) : queue_t × Option event_t :=
  match q.elems with
  | [] => (q, none)
  | e :: rest => ({ q with elems := rest }, some e)

/-- The event queue as `ini_rot` initializes it:
`queue_init(&events, sizeof(event_t), 32)`. -/
def ini_rot_events : queue_t := queue_init 32

/-- The state touched by the interrupt handler: the `static uint32_t
last_ms` of `gpio_callback` and the global `events` queue. -/
structure IsrState where
  last_ms : Nat
  events : queue_t
deriving DecidableEq, Repr

/-- 32-bit unsigned subtraction `a - b` (both arguments below `2^32`),
as computed by C on `uint32_t`. -/
def u32sub (a b : Nat) : Nat := (a + 2 ^ 32 - b) % 2 ^ 32

/-- `void gpio_callback(uint gpio, uint32_t event_mask)` from `src/main.c`.
`now` is the value `to_ms_since_boot(get_absolute_time())` would return
during this invocation and `rot_b_state` the level `gpio_get(ROT_B)` would
read; both are inputs of the embedding because they come from hardware. -/
def gpio_callback (gpio : Nat) (event_mask : Nat) (now : Nat)
    (rot_b_state : Bool) (s : IsrState) : IsrState :=
  let s :=
    if gpio = ROT_SW then
      let s :=
        if event_mask &&& GPIO_IRQ_EDGE_RISE ≠ 0 ∧
            u32sub now s.last_ms ≥ DEBOUNCE_MS then
          { last_ms := now,
            events := (queue_try_add s.events
              { type := event_type.EVENT_BUTTON, data := 0 }).1 }
        else s
      if event_mask &&& GPIO_IRQ_EDGE_FALL ≠ 0 ∧
          u32sub now s.last_ms ≥ DEBOUNCE_MS then
        { last_ms := now,
          events := (queue_try_add s.events
            { type := event_type.EVENT_BUTTON, data := 1 }).1 }
      else s
    else s
  if gpio = ROT_A ∧ event_mask &&& GPIO_IRQ_EDGE_RISE ≠ 0 then
    { s with
      events := (queue_try_add s.events
        { type := event_type.EVENT_ENCODER,
          data := if rot_b_state then -1 else 1 }).1 }
  else s

/-- One producer/consumer operation on the event queue: an attempted add
from the interrupt context or an attempted remove from the main loop. -/
inductive QueueOp where
  | add (e : event_t)
  | remove
deriving DecidableEq, Repr

/-- Run a sequence of attempted adds and removes against the queue,
keeping only the resulting queue state. -/
def runOps (q : queue_t) (ops : List QueueOp) : queue_t :=
  ops.foldl
    (fun q op =>
      match op with
      | QueueOp.add e => (queue_try_add q e).1
      | QueueOp.remove => (queue_try_remove q).1)
    q

/-- The invariant relating the programmed PWM duty to the lighting state:
every LED channel holds the stored brightness while the lights are on and
duty 0 while they are off. -/
def duty_matches (s : State) : Prop :=
  ∀ pin ∈ leds, led_duty s pin = if s.lightsOn = true then s.brightness else 0

/-- A concrete all-zero PWM hardware state, used to instantiate theorems
at concrete inputs. -/
def pwm0 : PwmState := fun _ _ => 0

/-! ## Helper lemmas -/

/-- `set_brightness` programs level `brightness` on the channel of every
LED pin. -/
theorem set_brightness_led (p : PwmState) (b : Nat) (pin : Nat)
    (hpin : pin ∈ leds) :
    set_brightness p b (pwm_gpio_to_slice_num pin) (pwm_gpio_to_channel pin)
      = b := by
  simp only [leds, LED_R, LED_M, LED_L, List.mem_cons, List.not_mem_nil,
    or_false] at hpin
  rcases hpin with h | h | h <;> subst h <;>
    simp [set_brightness, leds, LED_R, LED_M, LED_L, pwm_set_chan_level,
      pwm_gpio_to_slice_num, pwm_gpio_to_channel]

/-- `ini_leds` programs duty 0 on the channel of every LED pin. -/
theorem ini_leds_led (p : PwmState) (pin : Nat) (hpin : pin ∈ leds) :
    ini_leds p (pwm_gpio_to_slice_num pin) (pwm_gpio_to_channel pin) = 0 := by
  simp only [leds, LED_R, LED_M, LED_L, List.mem_cons, List.not_mem_nil,
    or_false] at hpin
  rcases hpin with h | h | h <;> subst h <;>
    simp [ini_leds, leds, LED_R, LED_M, LED_L, pwm_set_chan_level,
      pwm_gpio_to_slice_num, pwm_gpio_to_channel]

/-- Processing a button-press event: off → on at the stored brightness;
on at brightness 0 → brightness reset to `BR_MID`, still on; on at
positive brightness → off at duty 0. -/
theorem step_press (s : State) :
    step s { type := event_type.EVENT_BUTTON, data := 1 } =
      if s.lightsOn = false then
        { s with lightsOn := true, pwm := set_brightness s.pwm s.brightness }
      else if s.brightness = 0 then
        { s with brightness := BR_MID, pwm := set_brightness s.pwm BR_MID }
      else
        { s with lightsOn := false, pwm := set_brightness s.pwm 0 } := by
  cases hl : s.lightsOn
  · simp [step, light_switch, hl]
  · rcases Nat.eq_zero_or_pos s.brightness with hb | hb
    · simp [step, light_switch, hl, hb, Nat.le_zero]
    · simp [step, light_switch, hl, Nat.le_zero, Nat.pos_iff_ne_zero.mp hb]

/-- Processing a button-release event leaves the state unchanged. -/
theorem step_release (s : State) :
    step s { type := event_type.EVENT_BUTTON, data := 0 } = s := by
  simp [step]

/-- Processing an encoder event while the lights are on: the brightness is
updated through `clamp` and pushed to the PWM channels. -/
theorem step_enc_on (s : State) (d : Int) (h : s.lightsOn = true) :
    step s { type := event_type.EVENT_ENCODER, data := d } =
      { s with
        brightness := clamp ((s.brightness : Int) + d * (BR_RATE : Int)),
        pwm := set_brightness s.pwm
          (clamp ((s.brightness : Int) + d * (BR_RATE : Int))) } := by
  simp [step, h]

/-- Processing an encoder event while the lights are off leaves the state
unchanged. -/
theorem step_enc_off (s : State) (d : Int) (h : s.lightsOn = false) :
    step s { type := event_type.EVENT_ENCODER, data := d } = s := by
  simp [step, h]

/-- Only button-press events can change the on/off flag. -/
theorem step_lightsOn_frame (s : State) (e : event_t)
    (he : ¬(e.type = event_type.EVENT_BUTTON ∧ e.data = 1)) :
    (step s e).lightsOn = s.lightsOn := by
  rcases e with ⟨t, d⟩
  cases t
  · have hd : d ≠ 1 := by
      intro h
      exact he ⟨rfl, h⟩
    simp [step, hd]
  · cases hl : s.lightsOn <;> simp [step, hl]

/-- A button event whose data is not 1 (in particular a release) leaves the
state unchanged. -/
theorem step_button_nonpress (s : State) (d : Int) (hd : d ≠ 1) :
    step s { type := event_type.EVENT_BUTTON, data := d } = s := by
  simp [step, hd]

/-- On `uint32_t`, `a - b` is the plain difference when the clock is
monotone and below `2^32`. -/
theorem u32sub_eq (a b : Nat) (h1 : b ≤ a) (h2 : a < 2 ^ 32) :
    u32sub a b = a - b := by
  simp only [u32sub]
  omega

/-- `a - a = 0` on `uint32_t`. -/
theorem u32sub_self (a : Nat) : u32sub a a = 0 := by
  simp only [u32sub]
  omega

/-- `queue_try_add` on a queue with room appends the event and reports
success. -/
theorem queue_try_add_not_full (q : queue_t) (e : event_t)
    (h : q.elems.length < q.cap) :
    queue_try_add q e = ({ q with elems := q.elems ++ [e] }, true) := by
  simp [queue_try_add, Nat.not_le.mpr h]

/-- `queue_try_add` on a full queue fails and leaves the queue unchanged. -/
theorem queue_try_add_full (q : queue_t) (e : event_t)
    (h : q.cap ≤ q.elems.length) :
    queue_try_add q e = (q, false) := by
  simp [queue_try_add, h]

/-- One attempted add grows the queue by at most one element. -/
theorem queue_try_add_length (q : queue_t) (e : event_t) :
    (queue_try_add q e).1.elems.length ≤ q.elems.length + 1 := by
  by_cases h : q.elems.length ≥ q.cap <;> simp [queue_try_add, h]

/-- An attempted add never pushes the queue beyond its capacity. -/
theorem queue_try_add_le_cap (q : queue_t) (e : event_t)
    (h : q.elems.length ≤ q.cap) :
    (queue_try_add q e).1.elems.length ≤ q.cap := by
  by_cases hf : q.elems.length ≥ q.cap
  · simpa [queue_try_add, hf] using h
  · simp only [queue_try_add, hf, if_false]
    simp
    omega

/-- An attempted remove never grows the queue. -/
theorem queue_try_remove_le (q : queue_t) :
    (queue_try_remove q).1.elems.length ≤ q.elems.length := by
  rcases hq : q.elems with _ | ⟨e, rest⟩ <;> simp [queue_try_remove, hq]

/-- Any sequence of attempted adds and removes keeps the queue within its
capacity. -/
theorem runOps_le_cap (ops : List QueueOp) (q : queue_t)
    (h : q.elems.length ≤ q.cap) :
    (runOps q ops).elems.length ≤ q.cap := by
  induction ops generalizing q with
  | nil => exact h
  | cons op ops ih =>
    cases op with
    | add e =>
      have hc : ((queue_try_add q e).1).cap = q.cap := by
        by_cases hf : q.elems.length ≥ q.cap <;> simp [queue_try_add, hf]
      have := ih (queue_try_add q e).1 (by rw [hc]; exact queue_try_add_le_cap q e h)
      simpa [runOps, hc] using this
    | remove =>
      have hc : ((queue_try_remove q).1).cap = q.cap := by
        rcases hq : q.elems with _ | ⟨e, rest⟩ <;> simp [queue_try_remove, hq]
      have := ih (queue_try_remove q).1
        (by rw [hc]; exact le_trans (queue_try_remove_le q) h)
      simpa [runOps, hc] using this

/-- `init_state` satisfies the duty/state invariant. -/
theorem duty_matches_init (p : PwmState) : duty_matches (init_state p) := by
  intro pin hpin
  simp [init_state, led_duty, ini_leds_led p pin hpin]

/-- `step` preserves the duty/state invariant. -/
theorem duty_matches_step (s : State) (e : event_t) (h : duty_matches s) :
    duty_matches (step s e) := by
  rcases e with ⟨t, d⟩
  cases t
  · by_cases hd : d = 1
    · subst hd
      rw [step_press]
      split_ifs with h1 h2
      · intro pin hpin
        simp [led_duty, set_brightness_led _ _ pin hpin]
      · have h1' : s.lightsOn = true := by
          cases hb : s.lightsOn
          · exact absurd hb h1
          · rfl
        intro pin hpin
        simp [led_duty, set_brightness_led _ _ pin hpin, h1']
      · intro pin hpin
        simp [led_duty, set_brightness_led _ _ pin hpin]
    · rw [step_button_nonpress s d hd]
      exact h
  · cases hl : s.lightsOn
    · rw [step_enc_off s d hl]
      exact h
    · rw [step_enc_on s d hl]
      intro pin hpin
      simp [led_duty, set_brightness_led _ _ pin hpin, hl]

/-- Draining any event list preserves the duty/state invariant. -/
theorem duty_matches_foldl (es : List event_t) (s : State)
    (h : duty_matches s) : duty_matches (es.foldl step s) := by
  induction es generalizing s with
  | nil => exact h
  | cons e es ih => exact ih _ (duty_matches_step _ _ h)

/-- `clamp` is the identity on values within `[0, TOP]`. -/
theorem clamp_eq_self (x : Int) (h1 : 0 ≤ x) (h2 : x ≤ (TOP : Int)) :
    (clamp x : Int) = x := by
  have htop : ((TOP : Nat) : Int) = 999 := by norm_num [TOP]
  have hmax : ((MAX_BR : Nat) : Int) = 1000 := by norm_num [MAX_BR, TOP]
  rw [htop] at h2
  simp only [clamp]
  rw [if_neg (not_lt.mpr h1), if_neg (by omega)]
  exact Int.toNat_of_nonneg h1

/-- An accepted rising edge on the button pin enqueues a release event
(data 0) and stores the edge's timestamp. -/
theorem gpio_callback_rise_accepted (s : IsrState) (t : Nat) (b : Bool)
    (hmono : s.last_ms ≤ t) (hw : t < 2 ^ 32)
    (hacc : DEBOUNCE_MS ≤ t - s.last_ms) :
    gpio_callback ROT_SW GPIO_IRQ_EDGE_RISE t b s =
      { last_ms := t,
        events := (queue_try_add s.events
          { type := event_type.EVENT_BUTTON, data := 0 }).1 } := by
  have e1 := u32sub_eq t s.last_ms hmono hw
  have hacc' : 20 ≤ t - s.last_ms := hacc
  have h88 : (8 : Nat) &&& 8 = 8 := by decide
  have h84 : (8 : Nat) &&& 4 = 0 := by decide
  simp [gpio_callback, ROT_SW, ROT_A, GPIO_IRQ_EDGE_RISE, GPIO_IRQ_EDGE_FALL,
    e1, hacc', DEBOUNCE_MS, h88, h84, u32sub_self]

/-- An accepted falling edge on the button pin enqueues a press event
(data 1) and stores the edge's timestamp. -/
theorem gpio_callback_fall_accepted (s : IsrState) (t : Nat) (b : Bool)
    (hmono : s.last_ms ≤ t) (hw : t < 2 ^ 32)
    (hacc : DEBOUNCE_MS ≤ t - s.last_ms) :
    gpio_callback ROT_SW GPIO_IRQ_EDGE_FALL t b s =
      { last_ms := t,
        events := (queue_try_add s.events
          { type := event_type.EVENT_BUTTON, data := 1 }).1 } := by
  have e1 := u32sub_eq t s.last_ms hmono hw
  have hacc' : 20 ≤ t - s.last_ms := hacc
  have h48 : (4 : Nat) &&& 8 = 0 := by decide
  have h44 : (4 : Nat) &&& 4 = 4 := by decide
  simp [gpio_callback, ROT_SW, ROT_A, GPIO_IRQ_EDGE_RISE, GPIO_IRQ_EDGE_FALL,
    e1, hacc', DEBOUNCE_MS, h48, h44]

/-- A button-pin invocation inside the debounce window changes nothing:
no event is enqueued and the stored timestamp keeps its value. -/
theorem gpio_callback_rejected (s : IsrState) (t m : Nat) (b : Bool)
    (hrej : u32sub t s.last_ms < DEBOUNCE_MS) :
    gpio_callback ROT_SW m t b s = s := by
  have h := Nat.not_le.mpr hrej
  simp [gpio_callback, ROT_SW, ROT_A, h]

/-! ## Claim theorems -/

/-- C1: the claimed invariant "brightness always stays within [0, TOP] and
a +1 encoder step from 999 leaves 999" fails on the code: `clamp` bounds
the brightness by `MAX_BR = TOP + 1 = 1000`, not by `TOP = 999` as its own
comments state, so a +1 encoder step from brightness 999 with the lights on
stores 1000, and from boot (brightness `BR_MID = 500`) one button press
followed by ten +1 encoder steps also drives the stored brightness to
1000 > TOP. -/
theorem brightness_can_exceed_top :
    (step { brightness := 999, lightsOn := true, pwm := pwm0 }
        { type := event_type.EVENT_ENCODER, data := 1 }).brightness = 1000 ∧
    ((({ type := event_type.EVENT_BUTTON, data := 1 } ::
        List.replicate 10 { type := event_type.EVENT_ENCODER, data := 1 }).foldl
          step (init_state pwm0)).brightness) = 1000 ∧
    TOP = 999 := by
  refine ⟨?_, ?_, rfl⟩ <;> rfl

/-- C2: processing a button-press event (type Button, data 1): lights off →
turned on at the stored brightness; lights on at brightness 0 → brightness
reset to the mid value `BR_MID` with the lights kept on; lights on at
positive brightness → lights turned off with duty 0 and the flag cleared. -/
theorem button_press_cases (s : State) :
    step s { type := event_type.EVENT_BUTTON, data := 1 } =
      if s.lightsOn = false then
        { s with lightsOn := true, pwm := set_brightness s.pwm s.brightness }
      else if s.brightness = 0 then
        { s with brightness := BR_MID, pwm := set_brightness s.pwm BR_MID }
      else
        { s with lightsOn := false, pwm := set_brightness s.pwm 0 } :=
  step_press s

/-- C3: two edges on the button pin less than `DEBOUNCE_MS` = 20 ms apart
yield a single accepted event: the first edge (past the debounce window,
queue not full) enqueues press (data 1) on a fall and release (data 0) on
a rise and stores its timestamp, and the second edge is rejected by the
debounce check, leaving the handler state untouched. -/
theorem debounce_pair_single_accept (s : IsrState) (t1 t2 m1 m2 : Nat)
    (b1 b2 : Bool)
    (hm1 : m1 = GPIO_IRQ_EDGE_RISE ∨ m1 = GPIO_IRQ_EDGE_FALL)
    (hm2 : m2 = GPIO_IRQ_EDGE_RISE ∨ m2 = GPIO_IRQ_EDGE_FALL)
    (hmono : s.last_ms ≤ t1) (h12 : t1 ≤ t2) (hw : t2 < 2 ^ 32)
    (hclose : t2 - t1 < DEBOUNCE_MS)
    (hacc : DEBOUNCE_MS ≤ t1 - s.last_ms)
    (hroom : s.events.elems.length < s.events.cap) :
    gpio_callback ROT_SW m1 t1 b1 s =
      { last_ms := t1,
        events := { s.events with elems := s.events.elems ++
          [{ type := event_type.EVENT_BUTTON,
             data := if m1 = GPIO_IRQ_EDGE_FALL then 1 else 0 }] } } ∧
    gpio_callback ROT_SW m2 t2 b2 (gpio_callback ROT_SW m1 t1 b1 s) =
      gpio_callback ROT_SW m1 t1 b1 s := by
  have hw1 : t1 < 2 ^ 32 := lt_of_le_of_lt h12 hw
  have hfirst : gpio_callback ROT_SW m1 t1 b1 s =
      { last_ms := t1,
        events := { s.events with elems := s.events.elems ++
          [{ type := event_type.EVENT_BUTTON,
             data := if m1 = GPIO_IRQ_EDGE_FALL then 1 else 0 }] } } := by
    rcases hm1 with h | h <;> subst h
    · rw [gpio_callback_rise_accepted s t1 b1 hmono hw1 hacc,
        queue_try_add_not_full s.events _ hroom]
      simp [GPIO_IRQ_EDGE_RISE, GPIO_IRQ_EDGE_FALL]
    · rw [gpio_callback_fall_accepted s t1 b1 hmono hw1 hacc,
        queue_try_add_not_full s.events _ hroom]
      simp
  refine ⟨hfirst, ?_⟩
  rw [hfirst]
  apply gpio_callback_rejected
  show u32sub t2 t1 < DEBOUNCE_MS
  rw [u32sub_eq t2 t1 h12 hw]
  exact hclose

/-- C3 witness: from timestamp 0, a falling edge at 100 ms is accepted and
enqueues a press event; a rising edge at 110 ms (10 ms later) is
rejected. -/
theorem debounce_pair_single_accept_witness :
    gpio_callback ROT_SW GPIO_IRQ_EDGE_FALL 100 false
        { last_ms := 0, events := queue_init 32 } =
      { last_ms := 100,
        events := { queue_init 32 with elems := (queue_init 32).elems ++
          [{ type := event_type.EVENT_BUTTON,
             data := if GPIO_IRQ_EDGE_FALL = GPIO_IRQ_EDGE_FALL
               then 1 else 0 }] } } ∧
    gpio_callback ROT_SW GPIO_IRQ_EDGE_RISE 110 true
        (gpio_callback ROT_SW GPIO_IRQ_EDGE_FALL 100 false
          { last_ms := 0, events := queue_init 32 }) =
      gpio_callback ROT_SW GPIO_IRQ_EDGE_FALL 100 false
        { last_ms := 0, events := queue_init 32 } :=
  debounce_pair_single_accept { last_ms := 0, events := queue_init 32 }
    100 110 GPIO_IRQ_EDGE_FALL GPIO_IRQ_EDGE_RISE false true
    (Or.inr rfl) (Or.inl rfl) (by decide) (by decide) (by decide)
    (by decide) (by decide) (by decide)

/-- C4: an encoder event with the lights on changes the stored brightness
by exactly `data * BR_RATE` whenever that result lies within the valid
range, and the resulting duty is written identically to every LED
channel. -/
theorem encoder_step_on_exact (s : State) (d : Int) (pin : Nat)
    (hon : s.lightsOn = true) (hd : d = 1 ∨ d = -1) (hpin : pin ∈ leds)
    (hlo : 0 ≤ (s.brightness : Int) + d * (BR_RATE : Int))
    (hhi : (s.brightness : Int) + d * (BR_RATE : Int) ≤ (TOP : Int)) :
    ((step s { type := event_type.EVENT_ENCODER, data := d }).brightness :
        Int) = (s.brightness : Int) + d * (BR_RATE : Int) ∧
    led_duty (step s { type := event_type.EVENT_ENCODER, data := d }) pin
      = (step s { type := event_type.EVENT_ENCODER, data := d }).brightness
    := by
  rw [step_enc_on s d hon]
  constructor
  · exact clamp_eq_self _ hlo hhi
  · simp [led_duty, set_brightness_led _ _ pin hpin]

/-- C4 witness: with the lights on at brightness 500, a +1 encoder step
stores 550 and programs 550 on the right LED's channel. -/
theorem encoder_step_on_exact_witness :
    ((step { brightness := 500, lightsOn := true, pwm := pwm0 }
        { type := event_type.EVENT_ENCODER, data := 1 }).brightness : Int)
      = ((500 : Nat) : Int) + 1 * (BR_RATE : Int) ∧
    led_duty (step { brightness := 500, lightsOn := true, pwm := pwm0 }
        { type := event_type.EVENT_ENCODER, data := 1 }) LED_R
      = (step { brightness := 500, lightsOn := true, pwm := pwm0 }
          { type := event_type.EVENT_ENCODER, data := 1 }).brightness :=
  encoder_step_on_exact { brightness := 500, lightsOn := true, pwm := pwm0 }
    1 LED_R rfl (Or.inl rfl) (by decide) (by decide) (by decide)

/-- C5: an encoder event processed while the lights are off leaves the
whole lighting state (brightness, flag and programmed PWM duties)
unchanged, and no event other than a button press ever changes the
on/off flag. -/
theorem encoder_off_frame (s : State) (d : Int) (e : event_t)
    (hoff : s.lightsOn = false)
    (he : ¬(e.type = event_type.EVENT_BUTTON ∧ e.data = 1)) :
    step s { type := event_type.EVENT_ENCODER, data := d } = s ∧
    (step s e).lightsOn = s.lightsOn :=
  ⟨step_enc_off s d hoff, step_lightsOn_frame s e he⟩

/-- C5 witness: with the lights off at brightness 500, a +1 encoder step
changes nothing and a −1 encoder step keeps the flag off. -/
theorem encoder_off_frame_witness :
    step { brightness := 500, lightsOn := false, pwm := pwm0 }
        { type := event_type.EVENT_ENCODER, data := 1 }
      = { brightness := 500, lightsOn := false, pwm := pwm0 } ∧
    (step { brightness := 500, lightsOn := false, pwm := pwm0 }
        { type := event_type.EVENT_ENCODER, data := -1 }).lightsOn
      = ({ brightness := 500, lightsOn := false, pwm := pwm0 } :
          State).lightsOn :=
  encoder_off_frame { brightness := 500, lightsOn := false, pwm := pwm0 }
    1 { type := event_type.EVENT_ENCODER, data := -1 } rfl (by decide)

/-- C6: the event queue is created with fixed capacity 32; no sequence of
attempted adds and removes pushes it past 32 entries; an attempted add on
a full queue reports failure and leaves the queued entries untouched; and
an attempted remove on an empty queue reports nothing and does not
block. -/
theorem queue_capacity_bounds (ops : List QueueOp) (q : queue_t)
    (e : event_t) (hfull : q.elems.length = q.cap) :
    ini_rot_events.cap = 32 ∧
    (runOps ini_rot_events ops).elems.length ≤ 32 ∧
    queue_try_add q e = (q, false) ∧
    queue_try_remove { cap := 32, elems := [] }
      = ({ cap := 32, elems := [] }, none) := by
  refine ⟨rfl, ?_, queue_try_add_full q e (le_of_eq hfull.symm), rfl⟩
  exact runOps_le_cap ops ini_rot_events (by simp [ini_rot_events, queue_init])

/-- C6 witness: the initialized queue has capacity 32; one burst add stays
within 32; adding to a queue holding 32 entries fails and preserves them;
removing from an empty queue yields nothing. -/
theorem queue_capacity_bounds_witness :
    ini_rot_events.cap = 32 ∧
    (runOps ini_rot_events
        [QueueOp.add { type := event_type.EVENT_BUTTON, data := 1 }]).elems.length
      ≤ 32 ∧
    queue_try_add
        { cap := 32,
          elems := List.replicate 32 { type := event_type.EVENT_BUTTON, data := 1 } }
        { type := event_type.EVENT_BUTTON, data := 0 }
      = ({ cap := 32,
           elems := List.replicate 32 { type := event_type.EVENT_BUTTON, data := 1 } },
         false) ∧
    queue_try_remove { cap := 32, elems := [] }
      = ({ cap := 32, elems := [] }, none) :=
  queue_capacity_bounds
    [QueueOp.add { type := event_type.EVENT_BUTTON, data := 1 }]
    { cap := 32,
      elems := List.replicate 32 { type := event_type.EVENT_BUTTON, data := 1 } }
    { type := event_type.EVENT_BUTTON, data := 0 } (by decide)

/-- C7: a rising edge on encoder channel A enqueues an encoder event whose
data is −1 when channel B reads high and +1 when channel B reads low, and
touches nothing else in the handler state. -/
theorem encoder_direction_event (s : IsrState) (now : Nat) (b : Bool) :
    gpio_callback ROT_A GPIO_IRQ_EDGE_RISE now b s =
      { s with events := (queue_try_add s.events
          { type := event_type.EVENT_ENCODER,
            data := if b then -1 else 1 }).1 } := by
  simp [gpio_callback, ROT_A, ROT_SW, GPIO_IRQ_EDGE_RISE]

/-- C8: a drained button-release event (type Button, data 0) leaves the
lighting state exactly as it was: flag, brightness and PWM duties are all
unchanged. -/
theorem button_release_noop (s : State) :
    step s { type := event_type.EVENT_BUTTON, data := 0 } = s :=
  step_release s

/-- C9: right after initialization and after the main loop drains any
sequence of events, every LED channel's programmed duty equals the stored
brightness while the lights are on and 0 while they are off. -/
theorem duty_invariant (p : PwmState) (es : List event_t) :
    duty_matches (init_state p) ∧
    duty_matches (es.foldl step (init_state p)) :=
  ⟨duty_matches_init p, duty_matches_foldl es _ (duty_matches_init p)⟩

/-- C10: a single button-pin invocation carrying both the rising-edge and
falling-edge bits, past the debounce window, enqueues at most one event:
the rising edge is evaluated first and accepted (storing the timestamp and
enqueuing the release event), which makes the falling edge in the same
invocation fail the debounce check. -/
theorem both_edges_single_event (s : IsrState) (now : Nat) (b : Bool)
    (hmono : s.last_ms ≤ now) (hw : now < 2 ^ 32)
    (hdeb : DEBOUNCE_MS ≤ now - s.last_ms) :
    gpio_callback ROT_SW (GPIO_IRQ_EDGE_RISE ||| GPIO_IRQ_EDGE_FALL) now b s
      = { last_ms := now,
          events := (queue_try_add s.events
            { type := event_type.EVENT_BUTTON, data := 0 }).1 } ∧
    (queue_try_add s.events
        { type := event_type.EVENT_BUTTON, data := 0 }).1.elems.length
      ≤ s.events.elems.length + 1 := by
  constructor
  · have e1 := u32sub_eq now s.last_ms hmono hw
    have hacc' : 20 ≤ now - s.last_ms := hdeb
    have hor : (8 : Nat) ||| 4 = 12 := by decide
    have h128 : (12 : Nat) &&& 8 = 8 := by decide
    have h124 : (12 : Nat) &&& 4 = 4 := by decide
    simp [gpio_callback, ROT_SW, ROT_A, GPIO_IRQ_EDGE_RISE,
      GPIO_IRQ_EDGE_FALL, DEBOUNCE_MS, e1, hacc', hor, h128, h124,
      u32sub_self]
  · exact queue_try_add_length _ _

/-- C10 witness: from timestamp 0 at 100 ms, an invocation with both edge
bits set enqueues only the release event into the empty queue. -/
theorem both_edges_single_event_witness :
    gpio_callback ROT_SW (GPIO_IRQ_EDGE_RISE ||| GPIO_IRQ_EDGE_FALL) 100
        false { last_ms := 0, events := queue_init 32 }
      = { last_ms := 100,
          events := (queue_try_add (queue_init 32)
            { type := event_type.EVENT_BUTTON, data := 0 }).1 } ∧
    (queue_try_add (queue_init 32)
        { type := event_type.EVENT_BUTTON, data := 0 }).1.elems.length
      ≤ (queue_init 32).elems.length + 1 :=
  both_edges_single_event { last_ms := 0, events := queue_init 32 } 100
    false (by decide) (by decide) (by decide)

end Dimmer
